import Mathlib

/-! Ship route finder front end (`src/Frontend/src/App.jsx`).

A shallow embedding of the `App` component: the coordinate validator, the
WebSocket session handlers, the start button and the three overlay effects,
followed by the properties of the specification that they decide.

JavaScript values are modelled as follows.

* A number is a `JsNumber`: `NaN`, an infinity, or a finite binary64 value
  written `(-1)^neg * m * 2^e` with `m` odd (or `m = 0`, `e = 0`).
* A string is a Lean `String`; the characters the code inspects are all in the
  basic multilingual plane.
* An array is a `List`.
* React state and the `useRef` cells of `App` are the fields of `World`.
-/

namespace ShipRoute

/-! ## JavaScript numbers -/

/-- A JavaScript Number value. `fin neg m e` denotes `(-1)^neg * m * 2^e`. -/
inductive JsNumber where
  | nan
  | inf (neg : Bool)
  | fin (neg : Bool) (m : Nat) (e : Int)
  deriving DecidableEq, Repr

namespace JsNumber

/-- Floor of the binary logarithm, by repeated halving (`fuel` bounds the depth). -/
def log2Fuel : Nat → Nat → Nat
  | 0, _ => 0
  | fuel + 1, n => if n < 2 then 0 else log2Fuel fuel (n / 2) + 1

/-- Floor of the binary logarithm of `n` (0 for `n = 0`). -/
def log2 (n : Nat) : Nat := log2Fuel n n

/-- Remove the factors of two of a mantissa, raising the exponent to match. -/
def stripTwos : Nat → Nat → Int → Nat × Int
  | 0, m, e => (m, e)
  | fuel + 1, m, e =>
    if m ≠ 0 ∧ m % 2 = 0 then stripTwos fuel (m / 2) (e + 1) else (m, e)

/-- The canonical finite value `(-1)^neg * m * 2^e`. -/
def mkFin (neg : Bool) (m : Nat) (e : Int) : JsNumber :=
  if m = 0 then fin neg 0 0
  else fin neg (stripTwos m m e).1 (stripTwos m m e).2

/-- Floor of the binary logarithm of the positive ratio `p / q`. -/
def floorLog2Ratio (p q : Nat) : Int :=
  let t : Int := (log2 p : Int) - (log2 q : Int)
  if q * 2 ^ t.toNat ≤ p * 2 ^ (-t).toNat then t else t - 1

/-- The Number value for the real `(-1)^neg * p / q`: round to nearest binary64,
ties to even, with gradual underflow and overflow to an infinity. -/
def ofRatio (neg : Bool) (p q : Nat) : JsNumber :=
  if p = 0 then fin neg 0 0
  else
    let e : Int := max (floorLog2Ratio p q - 52) (-1074)
    let num := p * 2 ^ (-e).toNat
    let den := q * 2 ^ e.toNat
    let quo := num / den
    let r := num % den
    let m := if den < 2 * r ∨ (2 * r = den ∧ quo % 2 = 1) then quo + 1 else quo
    if 971 < e ∨ (e = 971 ∧ 2 ^ 53 ≤ m) then inf neg
    else mkFin neg m e

/-- The Number value of a natural number literal. -/
def ofNat (n : Nat) : JsNumber := ofRatio false n 1

/-- The global `isNaN` applied to a Number. -/
def isNaN : JsNumber → Bool
  | nan => true
  | _ => false

/-- The global `isFinite` applied to a Number. -/
def isFinite : JsNumber → Bool
  | fin _ _ _ => true
  | _ => false

/-- The function `Math.abs`. -/
def abs : JsNumber → JsNumber
  | nan => nan
  | inf _ => inf false
  | fin _ m e => fin false m e

/-- The integer `(-1)^neg * m * 2^(e - k)`, for `k ≤ e`. -/
def scaled (neg : Bool) (m : Nat) (e k : Int) : Int :=
  let v : Int := (m * 2 ^ (e - k).toNat : Nat)
  if neg then -v else v

/-- The operator `<=` on Numbers: false as soon as an operand is `NaN`. -/
def le : JsNumber → JsNumber → Bool
  | nan, _ => false
  | _, nan => false
  | inf true, _ => true
  | _, inf false => true
  | inf false, _ => false
  | _, inf true => false
  | fin n1 m1 e1, fin n2 m2 e2 =>
    decide (scaled n1 m1 e1 (min e1 e2) ≤ scaled n2 m2 e2 (min e1 e2))

end JsNumber

/-! ## `Number(string)`: the StringToNumber conversion -/

/-- The characters of `StrWhiteSpaceChar`: white space and line terminators. -/
def isStrWhiteSpaceChar (c : Char) : Bool :=
  let n := c.toNat
  n == 0x09 || n == 0x0A || n == 0x0B || n == 0x0C || n == 0x0D || n == 0x20 ||
  n == 0xA0 || n == 0x1680 || (0x2000 ≤ n && n ≤ 0x200A) || n == 0x2028 ||
  n == 0x2029 || n == 0x202F || n == 0x205F || n == 0x3000 || n == 0xFEFF

/-- Strip leading and trailing `StrWhiteSpaceChar`s. -/
def trimWhiteSpace (cs : List Char) : List Char :=
  ((cs.dropWhile isStrWhiteSpaceChar).reverse.dropWhile isStrWhiteSpaceChar).reverse

/-- The value of a digit in the given base, covering `0-9`, `a-z` and `A-Z`. -/
def digitValue (base : Nat) (c : Char) : Option Nat :=
  let n := c.toNat
  let v := if 48 ≤ n ∧ n ≤ 57 then n - 48
    else if 97 ≤ n ∧ n ≤ 122 then n - 87
    else if 65 ≤ n ∧ n ≤ 90 then n - 55
    else base
  if v < base then some v else none

/-- Read the longest run of digits: the value read, the number of digits and
the remaining characters. -/
def readDigits (base : Nat) : Nat → Nat → List Char → Nat × Nat × List Char
  | acc, cnt, [] => (acc, cnt, [])
  | acc, cnt, c :: cs =>
    match digitValue base c with
    | some v => readDigits base (acc * base + v) (cnt + 1) cs
    | none => (acc, cnt, c :: cs)

/-- A `NonDecimalIntegerLiteral` body: one or more digits up to the end. -/
def readInteger (base : Nat) (cs : List Char) : Option Nat :=
  match readDigits base 0 0 cs with
  | (v, cnt, []) => if cnt = 0 then none else some v
  | _ => none

/-- An optional `ExponentPart` up to the end of the text. -/
def readExponent : List Char → Option Int
  | [] => some 0
  | c :: cs =>
    if c = 'e' ∨ c = 'E' then
      match cs with
      | '+' :: ds => (readInteger 10 ds).map Int.ofNat
      | '-' :: ds => (readInteger 10 ds).map (fun v => -Int.ofNat v)
      | ds => (readInteger 10 ds).map Int.ofNat
    else none

/-- A `StrUnsignedDecimalLiteral` other than `Infinity`, as `(d, s)` with
mathematical value `d * 10^s`. -/
def readUnsignedDecimal (cs : List Char) : Option (Nat × Int) :=
  match readDigits 10 0 0 cs with
  | (i, ni, '.' :: r1) =>
    match readDigits 10 0 0 r1 with
    | (f, nf, r2) =>
      if ni = 0 ∧ nf = 0 then none
      else (readExponent r2).map (fun x => (i * 10 ^ nf + f, x - Int.ofNat nf))
  | (i, ni, r1) =>
    if ni = 0 then none else (readExponent r1).map (fun x => (i, x))

/-- The Number value for `(-1)^neg * d * 10^s`. -/
def decimalValue (neg : Bool) (d : Nat) (s : Int) : JsNumber :=
  JsNumber.ofRatio neg (d * 10 ^ s.toNat) (10 ^ (-s).toNat)

/-- A `StrUnsignedDecimalLiteral` with the sign already read. -/
def readUnsigned (neg : Bool) (cs : List Char) : JsNumber :=
  if cs = "Infinity".data then JsNumber.inf neg
  else
    match readUnsignedDecimal cs with
    | some (d, s) => decimalValue neg d s
    | none => JsNumber.nan

/-- StringToNumber on a list of characters. -/
def stringToNumber (text : List Char) : JsNumber :=
  match trimWhiteSpace text with
  | [] => JsNumber.fin false 0 0
  | '0' :: p :: ds =>
    if p = 'x' ∨ p = 'X' then
      match readInteger 16 ds with
      | some v => JsNumber.ofNat v
      | none => JsNumber.nan
    else if p = 'o' ∨ p = 'O' then
      match readInteger 8 ds with
      | some v => JsNumber.ofNat v
      | none => JsNumber.nan
    else if p = 'b' ∨ p = 'B' then
      match readInteger 2 ds with
      | some v => JsNumber.ofNat v
      | none => JsNumber.nan
    else readUnsigned false ('0' :: p :: ds)
  | '+' :: ds => readUnsigned false ds
  | '-' :: ds => readUnsigned true ds
  | ds => readUnsigned false ds

/-- The call `Number(s)` for a string `s`. -/
def Number (s : String) : JsNumber := stringToNumber s.data

/-! ## `String.prototype.split` with a one-character separator -/

/-- Split a character list at every occurrence of `sep`. -/
def splitChars (sep : Char) : List Char → List (List Char)
  | [] => [[]]
  | c :: cs =>
    if c = sep then [] :: splitChars sep cs
    else
      match splitChars sep cs with
      | [] => [[c]]
      | t :: ts => (c :: t) :: ts

/-- The call `s.split(sep)`. -/
def split (s : String) (sep : Char) : List String :=
  (splitChars sep s.data).map String.mk

/-! ## The coordinate validator -/

/-- Array indexing read as a Number: a missing element is `undefined`, which
`isNaN` and `Math.abs` convert to `NaN`. -/
def numberAt (coords : List JsNumber) (i : Nat) : JsNumber :=
  coords.getD i JsNumber.nan

/-- The function `validateCoordinates` of `App.jsx`. -/
def validateCoordinates (input : String) : Bool :=
  let coords := (split input ',').map Number
  coords.length == 2 &&
    !JsNumber.isNaN (numberAt coords 0) && !JsNumber.isNaN (numberAt coords 1) &&
    JsNumber.le (JsNumber.abs (numberAt coords 0)) (JsNumber.ofNat 90) &&
    JsNumber.le (JsNumber.abs (numberAt coords 1)) (JsNumber.ofNat 180)

/-! ## Data received from the planning service -/

/-- A `[lat, lon]` array of a path. -/
abbrev Coord := JsNumber × JsNumber

/-- One element of the `weather` array of a `final` message. -/
structure WeatherPoint where
  coordinate : Coord
  wind_speed : JsNumber
  wind_direction : JsNumber
  wave_height : JsNumber
  wave_dir : JsNumber
  current_vel : JsNumber
  current_dir : JsNumber
  deriving DecidableEq, Repr

/-- The object `JSON.parse(event.data)` seen by `onmessage`, by its `type`. -/
inductive ServerMessage where
  | final (path apath : List Coord) (weather : List WeatherPoint) (distance : JsNumber)
  | error (message : String)
  | other
  deriving DecidableEq, Repr

/-- The object passed to `JSON.stringify` in `onopen`. -/
structure StartMessage where
  type : String
  start : List JsNumber
  end_ : List JsNumber
  deriving DecidableEq, Repr

/-! ## The map surface -/

/-- The text bound to a marker, kept as the template and the values it shows:
`astar` is the tooltip `A*: lat.toFixed(4), lon.toFixed(4)`, `optimal` the
tooltip `Optimal: lat.toFixed(4), lon.toFixed(4)`, `weather` the popup listing
the coordinate and the six readings of the sample. -/
inductive Label where
  | astar (lat lon : JsNumber)
  | optimal (lat lon : JsNumber)
  | weather (point : WeatherPoint)
  deriving DecidableEq, Repr

/-- A circle marker made by `L.circleMarker`; `id` is the identity of the object. -/
structure Marker where
  id : Nat
  latlng : Coord
  radius : Nat
  color : String
  fillColor : String
  fillOpacity : JsNumber
  label : Label
  deriving DecidableEq, Repr

/-- A marker without its object identity. -/
def Marker.shape (m : Marker) : Coord × Nat × String × String × JsNumber × Label :=
  (m.latlng, m.radius, m.color, m.fillColor, m.fillOpacity, m.label)

/-- A `WebSocket` built by `connectWebSocket`; `start` and `end_` are the inputs
its `onopen` handler closes over. -/
structure Socket where
  start : String
  end_ : String
  deriving DecidableEq, Repr

/-- The state of `App`: the `useState` values, the `useRef` cells, and what the
component has done to the map surface, the network and the operator.
`polylineRef` and `boatPathRef` hold the geometry of the two polylines,
`layers` the circle markers now on the map, `center` the last `panTo` target,
`nextId` the number of markers created, `sockets` every socket constructed
(the last one is `wsRef.current`), `sent` the argument of every `send` call and
`alerts` the argument of every `alert` call. -/
structure World where
  astarcoordinates : List Coord
  coordinates : List Coord
  weatherData : List WeatherPoint
  start : String
  distance : JsNumber
  end_ : String
  status : String
  mapInitialized : Bool
  polylineRef : List Coord
  boatPathRef : List Coord
  boatMarkersRef : List Marker
  pathMarkersRef : List Marker
  weatherMarkersRef : List Marker
  layers : List Marker
  center : Option Coord
  nextId : Nat
  sockets : List Socket
  sent : List StartMessage
  alerts : List String
  deriving DecidableEq, Repr

/-- The state at the first render. -/
def World.init : World where
  astarcoordinates := []
  coordinates := []
  weatherData := []
  start := ""
  distance := JsNumber.ofNat 0
  end_ := ""
  status := "Disconnected"
  mapInitialized := false
  polylineRef := []
  boatPathRef := []
  boatMarkersRef := []
  pathMarkersRef := []
  weatherMarkersRef := []
  layers := []
  center := none
  nextId := 0
  sockets := []
  sent := []
  alerts := []

/-! ## The overlay effects -/

/-- The loop `markers.forEach(marker => marker.remove())`: each marker is taken
off the map by identity. -/
def removeMarkers (markers layers : List Marker) : List Marker :=
  markers.foldl (fun ls marker => ls.filter (fun l => l.id != marker.id)) layers

/-- The marker of one point of the A* path. -/
def astarMarker (id : Nat) (coord : Coord) : Marker where
  id := id
  latlng := coord
  radius := 1
  color := "#000000"
  fillColor := "#000000"
  fillOpacity := JsNumber.ofNat 1
  label := Label.astar coord.1 coord.2

/-- The marker of one point of the optimal path. -/
def pathMarker (id : Nat) (coord : Coord) : Marker where
  id := id
  latlng := coord
  radius := 2
  color := "#8B0000"
  fillColor := "#8B0000"
  fillOpacity := JsNumber.ofNat 1
  label := Label.optimal coord.1 coord.2

/-- The marker of one weather sample. -/
def weatherMarker (id : Nat) (point : WeatherPoint) : Marker where
  id := id
  latlng := point.coordinate
  radius := 2
  color := "#8B0000"
  fillColor := "#8B0000"
  fillOpacity := decimalValue false 7 (-1)
  label := Label.weather point

/-- One pass of the A* `forEach`: create the marker, add it to the map, push it. -/
def addAstarMarker (w : World) (coord : Coord) : World :=
  let marker := astarMarker w.nextId coord
  { w with nextId := w.nextId + 1, layers := w.layers ++ [marker],
           boatMarkersRef := w.boatMarkersRef ++ [marker] }

/-- One pass of the optimal path `forEach`. -/
def addPathMarker (w : World) (coord : Coord) : World :=
  let marker := pathMarker w.nextId coord
  { w with nextId := w.nextId + 1, layers := w.layers ++ [marker],
           pathMarkersRef := w.pathMarkersRef ++ [marker] }

/-- One pass of the weather `forEach`. -/
def addWeatherMarker (w : World) (point : WeatherPoint) : World :=
  let marker := weatherMarker w.nextId point
  { w with nextId := w.nextId + 1, layers := w.layers ++ [marker],
           weatherMarkersRef := w.weatherMarkersRef ++ [marker] }

/-- The effect "Handle A* Path Updates". -/
def astarEffect (w : World) : World :=
  if !w.mapInitialized || w.astarcoordinates.length == 0 then w
  else
    let w1 := { w with boatPathRef := w.astarcoordinates }
    let w2 := { w1 with layers := removeMarkers w1.boatMarkersRef w1.layers }
    let w3 := { w2 with boatMarkersRef := [] }
    let w4 := w.astarcoordinates.foldl addAstarMarker w3
    { w4 with center := w.astarcoordinates.getLast? }

/-- The effect "Handle Optimal Path Updates". -/
def pathEffect (w : World) : World :=
  if !w.mapInitialized || w.coordinates.length == 0 then w
  else
    let w1 := { w with polylineRef := w.coordinates }
    let w2 := { w1 with layers := removeMarkers w1.pathMarkersRef w1.layers }
    let w3 := { w2 with pathMarkersRef := [] }
    let w4 := w.coordinates.foldl addPathMarker w3
    { w4 with center := w.coordinates.getLast? }

/-- The effect "Handle Weather Data Updates". -/
def weatherEffect (w : World) : World :=
  if !w.mapInitialized then w
  else
    let w2 := { w with layers := removeMarkers w.weatherMarkersRef w.layers }
    let w3 := { w2 with weatherMarkersRef := [] }
    w.weatherData.foldl addWeatherMarker w3

/-- The three effects in the order the component declares them, as run after a
render in which the dependencies of all three changed. -/
def runEffects (w : World) : World :=
  weatherEffect (pathEffect (astarEffect w))

/-- The callback given to `windyInit`: the map is ready and both polylines are
created empty. -/
def onMapReady (w : World) : World :=
  runEffects { w with mapInitialized := true, polylineRef := [], boatPathRef := [] }

/-! ## The session handlers -/

/-- The function `connectWebSocket`: set the status and construct the socket. -/
def connectWebSocket (w : World) : World :=
  { w with status := "Connecting...",
           sockets := w.sockets ++ [{ start := w.start, end_ := w.end_ }] }

/-- The handler `onopen` of a socket `c`: set the status and call `send` on
`wsRef.current` with the request built from the inputs `c` closed over. -/
def onopen (c : Socket) (w : World) : World :=
  { w with status := "Calculating Routes...",
           sent := w.sent ++ [{ type := "start",
                                start := (split c.start ',').map Number,
                                end_ := (split c.end_ ',').map Number }] }

/-- The handler `onmessage`: the state updates it makes. -/
def onmessage (data : ServerMessage) (w : World) : World :=
  match data with
  | ServerMessage.final path apath weather distance =>
    { w with coordinates := path, astarcoordinates := apath, weatherData := weather,
             distance := distance, status := "Routes Calculated" }
  | ServerMessage.error message => { w with status := "Error: " ++ message }
  | ServerMessage.other => w

/-- The handler `onerror`. -/
def onerror (w : World) : World := { w with status := "Connection Error" }

/-- The handler `onclose`. -/
def onclose (w : World) : World := { w with status := "Disconnected" }

/-- A message event followed by the render it causes: a `final` message stores
three fresh arrays, so the three overlay effects run; the other messages change
no dependency of an effect. -/
def deliver (data : ServerMessage) (w : World) : World :=
  match data with
  | ServerMessage.final _ _ _ _ => runEffects (onmessage data w)
  | _ => onmessage data w

/-- The function `startNavigation`. -/
def startNavigation (w : World) : World :=
  if !validateCoordinates w.start || !validateCoordinates w.end_ then
    { w with alerts := w.alerts ++ ["Invalid coordinates! Use format: lat,lon"] }
  else connectWebSocket w

/-- The `disabled` attribute of the Start Navigation button. -/
def startDisabled (w : World) : Bool := w.status == "Connecting..."

/-- The text of the Start Navigation button. -/
def startLabel (w : World) : String :=
  if "Calculating".data.isPrefixOf w.status.data then "Calculating..." else "Start Navigation"

/-- A click on the Start Navigation button: a disabled button fires no handler. -/
def clickStart (w : World) : World :=
  if startDisabled w then w else startNavigation w

/-! ## Protocol events -/

/-- The events of a session: a call of `connectWebSocket`, and the four
callbacks of the socket numbered `i` in order of construction. -/
inductive ProtocolEvent where
  | connect
  | opened (i : Nat)
  | message (i : Nat) (data : ServerMessage)
  | failure (i : Nat)
  | close (i : Nat)
  deriving DecidableEq, Repr

/-- Process one event. A callback of a socket that was never constructed
cannot fire and changes nothing. -/
def step (w : World) : ProtocolEvent → World
  | ProtocolEvent.connect => connectWebSocket w
  | ProtocolEvent.opened i =>
    match w.sockets.get? i with
    | some c => onopen c w
    | none => w
  | ProtocolEvent.message i data =>
    match w.sockets.get? i with
    | some _ => deliver data w
    | none => w
  | ProtocolEvent.failure i =>
    match w.sockets.get? i with
    | some _ => onerror w
    | none => w
  | ProtocolEvent.close i =>
    match w.sockets.get? i with
    | some _ => onclose w
    | none => w

/-- Process a sequence of events, first to last. -/
def run (w : World) (evs : List ProtocolEvent) : World := evs.foldl step w

/-! ## Vocabulary of the specification -/

/-- The three overlays of §4.3. -/
inductive OverlayKind where
  | primary
  | alternate
  | weather
  deriving DecidableEq, Repr

/-- Reconciliation of one overlay: the effect that rebuilds it. -/
def reconcile : OverlayKind → World → World
  | OverlayKind.primary => pathEffect
  | OverlayKind.alternate => astarEffect
  | OverlayKind.weather => weatherEffect

/-- The markers an overlay holds. -/
def overlayMarkers : OverlayKind → World → List Marker
  | OverlayKind.primary, w => w.pathMarkersRef
  | OverlayKind.alternate, w => w.boatMarkersRef
  | OverlayKind.weather, w => w.weatherMarkersRef

/-- The polyline geometry of an overlay; the weather overlay has none. -/
def overlayPolyline : OverlayKind → World → Option (List Coord)
  | OverlayKind.primary, w => some w.polylineRef
  | OverlayKind.alternate, w => some w.boatPathRef
  | OverlayKind.weather, _ => none

/-- The positions of the backing data of an overlay. -/
def overlayData : OverlayKind → World → List Coord
  | OverlayKind.primary, w => w.coordinates
  | OverlayKind.alternate, w => w.astarcoordinates
  | OverlayKind.weather, w => w.weatherData.map WeatherPoint.coordinate

/-- The status values of §4.2, as the strings the component shows: the five
fixed texts and `Error: ` followed by the message of the server. -/
def isStatus (s : String) : Bool :=
  s == "Disconnected" || s == "Connecting..." || s == "Calculating Routes..." ||
  s == "Routes Calculated" || s == "Connection Error" ||
  "Error: ".data.isPrefixOf s.data

/-- The edges of the §4.2 state machine as the specification lists them: from
status `s`, event `e` may lead to status `t`. -/
def specEdge (s : String) (e : ProtocolEvent) (t : String) : Bool :=
  match e with
  | ProtocolEvent.connect => t == "Connecting..."
  | ProtocolEvent.opened _ => s == "Connecting..." && t == "Calculating Routes..."
  | ProtocolEvent.message _ (ServerMessage.final _ _ _ _) =>
    s == "Calculating Routes..." && t == "Routes Calculated"
  | ProtocolEvent.message _ (ServerMessage.error message) =>
    (s == "Connecting..." || s == "Calculating Routes...") && t == "Error: " ++ message
  | ProtocolEvent.message _ ServerMessage.other => false
  | ProtocolEvent.failure _ => t == "Connection Error"
  | ProtocolEvent.close _ => t == "Disconnected"

/-- The status an event assigns, whatever the status before it; `none` for a
message of unrecognised type, which assigns nothing. -/
def statusSetBy : ProtocolEvent → Option String
  | ProtocolEvent.connect => some "Connecting..."
  | ProtocolEvent.opened _ => some "Calculating Routes..."
  | ProtocolEvent.message _ (ServerMessage.final _ _ _ _) => some "Routes Calculated"
  | ProtocolEvent.message _ (ServerMessage.error message) => some ("Error: " ++ message)
  | ProtocolEvent.message _ ServerMessage.other => none
  | ProtocolEvent.failure _ => some "Connection Error"
  | ProtocolEvent.close _ => some "Disconnected"

/-- Whether an event reaches the component: `connect` always does, a callback
does when its socket exists. -/
def reaches (w : World) : ProtocolEvent → Bool
  | ProtocolEvent.connect => true
  | ProtocolEvent.opened i => decide (i < w.sockets.length)
  | ProtocolEvent.message i _ => decide (i < w.sockets.length)
  | ProtocolEvent.failure i => decide (i < w.sockets.length)
  | ProtocolEvent.close i => decide (i < w.sockets.length)

/-- Markers made for consecutive elements, numbered from `n`. -/
def mkMarkers {α : Type} (mk : Nat → α → Marker) : Nat → List α → List Marker
  | _, [] => []
  | n, c :: cs => mk n c :: mkMarkers mk (n + 1) cs

/-- Every marker on the map was numbered before the next one to be created. -/
def FreshIds (w : World) : Prop := ∀ m ∈ w.layers, m.id < w.nextId

/-- The rational denoted by a finite Number. -/
def JsNumber.value : JsNumber → Option ℚ
  | JsNumber.fin neg m e => some ((if neg then -1 else 1) * (m : ℚ) * (2 : ℚ) ^ e)
  | _ => none

/-- The part of the state that is not the map: the React state of the session,
the sockets, and the calls to `send` and `alert`. -/
def World.session (w : World) :=
  (w.astarcoordinates, w.coordinates, w.weatherData, w.start, w.distance, w.end_,
    w.status, w.mapInitialized, w.sockets, w.sent, w.alerts)

/-- The §8.5 response of the planning service. -/
def sampleFinal : ServerMessage :=
  ServerMessage.final
    [(JsNumber.ofNat 10, JsNumber.ofNat 20), (JsNumber.ofNat 15, JsNumber.ofNat 25)]
    [(JsNumber.ofNat 10, JsNumber.ofNat 20), (JsNumber.ofNat 12, JsNumber.ofNat 22),
     (JsNumber.ofNat 15, JsNumber.ofNat 25)]
    []
    (decimalValue false 7423 (-1))

/-- The §8.5 response with one weather sample added, at the first point. -/
def stormFinal : ServerMessage :=
  ServerMessage.final
    [(JsNumber.ofNat 10, JsNumber.ofNat 20), (JsNumber.ofNat 15, JsNumber.ofNat 25)]
    [(JsNumber.ofNat 10, JsNumber.ofNat 20), (JsNumber.ofNat 12, JsNumber.ofNat 22),
     (JsNumber.ofNat 15, JsNumber.ofNat 25)]
    [{ coordinate := (JsNumber.ofNat 10, JsNumber.ofNat 20),
       wind_speed := JsNumber.ofNat 12, wind_direction := JsNumber.ofNat 270,
       wave_height := JsNumber.ofNat 2, wave_dir := JsNumber.ofNat 260,
       current_vel := JsNumber.ofNat 3, current_dir := JsNumber.ofNat 90 }]
    (decimalValue false 7423 (-1))

/-- A `final` message with no route at all. -/
def emptyFinal : ServerMessage := ServerMessage.final [] [] [] (JsNumber.ofNat 0)

/-- The §8.5 session up to the moment the request is on the wire: the map is
ready, the operator typed both points and pressed Start Navigation, and the
socket opened. -/
def sampleSession : World :=
  run (clickStart { onMapReady World.init with start := "10.0,20.0", end_ := "15.0,25.0" })
    [ProtocolEvent.opened 0]

/-- The §8.5 session after a response with a route and one weather sample: the
map shows 2 + 3 path markers and 1 weather marker. -/
def drawnSession : World :=
  run sampleSession [ProtocolEvent.message 0 stormFinal]

/-- The session `drawnSession` after a second response that carries no route and
no weather. -/
def staleSession : World :=
  run drawnSession [ProtocolEvent.message 0 emptyFinal]

/-! ## Numbers: the comparison against the rationals -/

theorem JsNumber.scaled_cast (neg : Bool) (m : Nat) (e k : Int) (h : k ≤ e) :
    ((JsNumber.scaled neg m e k : Int) : ℚ) =
      (if neg then -1 else 1) * (m : ℚ) * (2 : ℚ) ^ e * ((2 : ℚ) ^ k)⁻¹ := by
  have h2 : (2 : ℚ) ≠ 0 := by norm_num
  have hk : ((2 : ℚ) ^ (e - k).toNat) = (2 : ℚ) ^ e * ((2 : ℚ) ^ k)⁻¹ := by
    rw [← zpow_natCast, Int.toNat_of_nonneg (by omega), zpow_sub₀ h2, div_eq_mul_inv]
  unfold JsNumber.scaled
  cases neg <;> simp [hk] <;> ring

theorem JsNumber.le_fin_iff (n1 : Bool) (m1 : Nat) (e1 : Int) (n2 : Bool) (m2 : Nat)
    (e2 : Int) :
    JsNumber.le (JsNumber.fin n1 m1 e1) (JsNumber.fin n2 m2 e2) = true ↔
      (if n1 then -1 else 1) * (m1 : ℚ) * (2 : ℚ) ^ e1 ≤
        (if n2 then -1 else 1) * (m2 : ℚ) * (2 : ℚ) ^ e2 := by
  have hpos : (0 : ℚ) < ((2 : ℚ) ^ (min e1 e2))⁻¹ := by positivity
  simp only [JsNumber.le, decide_eq_true_eq]
  rw [← Int.cast_le (R := ℚ), JsNumber.scaled_cast _ _ _ _ (min_le_left e1 e2),
    JsNumber.scaled_cast _ _ _ _ (min_le_right e1 e2)]
  exact mul_le_mul_right hpos

/-- `Math.abs(z) <= b` for a finite non-negative bound `b = m * 2^e` holds
exactly when `z` is finite and its absolute value is at most the bound. -/
theorem JsNumber.le_abs_iff (z : JsNumber) (m : Nat) (e : Int) :
    JsNumber.le z.abs (JsNumber.fin false m e) = true ↔
      ∃ x : ℚ, z.value = some x ∧ |x| ≤ (m : ℚ) * (2 : ℚ) ^ e := by
  cases z with
  | nan => simp [JsNumber.abs, JsNumber.le, JsNumber.value]
  | inf b => simp [JsNumber.abs, JsNumber.le, JsNumber.value]
  | fin neg k d =>
    have hk : (0 : ℚ) ≤ (k : ℚ) * (2 : ℚ) ^ d := by positivity
    rw [JsNumber.abs, JsNumber.le_fin_iff]
    cases neg
    · simp [JsNumber.value, abs_of_nonneg hk]
    · simp [JsNumber.value, abs_of_nonneg hk]

/-! ## The coordinate validator -/

theorem ofNat_ninety : JsNumber.ofNat 90 = JsNumber.fin false 45 1 := by decide

theorem ofNat_oneEighty : JsNumber.ofNat 180 = JsNumber.fin false 45 2 := by decide

theorem isNaN_eq_false_of_value {z : JsNumber} {x : ℚ} (h : z.value = some x) :
    z.isNaN = false := by
  cases z <;> simp_all [JsNumber.value, JsNumber.isNaN]

/-- The validator in terms of the tokens of the input and their values. -/
theorem validateCoordinates_iff (s : String) :
    validateCoordinates s = true ↔
      ∃ a b : String, ∃ x y : ℚ, split s ',' = [a, b] ∧
        (Number a).value = some x ∧ (Number b).value = some y ∧
        |x| ≤ 90 ∧ |y| ≤ 180 := by
  have h90 : ((45 : Nat) : ℚ) * (2 : ℚ) ^ (1 : Int) = 90 := by norm_num
  have h180 : ((45 : Nat) : ℚ) * (2 : ℚ) ^ (2 : Int) = 180 := by norm_num
  unfold validateCoordinates
  rw [ofNat_ninety, ofNat_oneEighty]
  constructor
  · intro h
    simp only [Bool.and_eq_true, beq_iff_eq, List.length_map, Bool.not_eq_true',
      JsNumber.le_abs_iff] at h
    obtain ⟨⟨⟨⟨hlen, -⟩, -⟩, hx⟩, hy⟩ := h
    match hs : split s ',', hlen with
    | [a, b], _ =>
      rw [hs] at hx hy
      obtain ⟨x, hx1, hx2⟩ := hx
      obtain ⟨y, hy1, hy2⟩ := hy
      rw [h90] at hx2
      rw [h180] at hy2
      exact ⟨a, b, x, y, rfl, hx1, hy1, hx2, hy2⟩
  · rintro ⟨a, b, x, y, hs, hx1, hy1, hx2, hy2⟩
    simp only [hs, Bool.and_eq_true, beq_iff_eq, List.length_map, Bool.not_eq_true',
      JsNumber.le_abs_iff, numberAt, List.map, List.getD_cons_zero, List.getD_cons_succ,
      List.length_cons, List.length_nil]
    refine ⟨⟨⟨⟨trivial, isNaN_eq_false_of_value hx1⟩, isNaN_eq_false_of_value hy1⟩,
      x, hx1, by rw [h90]; exact hx2⟩, y, hy1, by rw [h180]; exact hy2⟩

/-- C4: `validateCoordinates s` is true exactly when splitting `s` on `,` gives
two tokens, both convert to finite numbers, the first of absolute value at most
90 and the second at most 180; it accepts `12.5,45.2` and rejects `91,45`,
`12.5,200`, `12.5` and `abc,45`. -/
theorem validateCoordinates_spec (s : String) :
    (validateCoordinates s = true ↔
      ∃ a b : String, ∃ x y : ℚ, split s ',' = [a, b] ∧
        (Number a).value = some x ∧ (Number b).value = some y ∧
        |x| ≤ 90 ∧ |y| ≤ 180) ∧
    validateCoordinates "12.5,45.2" = true ∧
    validateCoordinates "91,45" = false ∧
    validateCoordinates "12.5,200" = false ∧
    validateCoordinates "12.5" = false ∧
    validateCoordinates "abc,45" = false :=
  ⟨validateCoordinates_iff s, by decide, by decide, by decide, by decide, by decide⟩

/-- C5: the validator rejects the empty string and `abc,45`, but accepts `,`,
`12.5,` and a pair of blank tokens, because `Number` converts an empty or blank
token to 0. -/
theorem validateCoordinates_empty_tokens :
    validateCoordinates "" = false ∧
    validateCoordinates "abc,45" = false ∧
    validateCoordinates "," = true ∧
    validateCoordinates "12.5," = true ∧
    validateCoordinates " , " = true ∧
    (split "," ',').map Number = [JsNumber.fin false 0 0, JsNumber.fin false 0 0] := by
  decide

/-! ## The overlay effects in closed form -/

theorem foldl_addAstarMarker (cs : List Coord) (w : World) :
    cs.foldl addAstarMarker w =
      { w with nextId := w.nextId + cs.length,
               layers := w.layers ++ mkMarkers astarMarker w.nextId cs,
               boatMarkersRef := w.boatMarkersRef ++ mkMarkers astarMarker w.nextId cs } := by
  induction cs generalizing w with
  | nil => simp [mkMarkers]
  | cons c cs ih =>
    rw [List.foldl_cons, ih]
    simp [addAstarMarker, mkMarkers, Nat.add_assoc, Nat.add_comm 1]

theorem foldl_addPathMarker (cs : List Coord) (w : World) :
    cs.foldl addPathMarker w =
      { w with nextId := w.nextId + cs.length,
               layers := w.layers ++ mkMarkers pathMarker w.nextId cs,
               pathMarkersRef := w.pathMarkersRef ++ mkMarkers pathMarker w.nextId cs } := by
  induction cs generalizing w with
  | nil => simp [mkMarkers]
  | cons c cs ih =>
    rw [List.foldl_cons, ih]
    simp [addPathMarker, mkMarkers, Nat.add_assoc, Nat.add_comm 1]

theorem foldl_addWeatherMarker (ps : List WeatherPoint) (w : World) :
    ps.foldl addWeatherMarker w =
      { w with nextId := w.nextId + ps.length,
               layers := w.layers ++ mkMarkers weatherMarker w.nextId ps,
               weatherMarkersRef :=
                 w.weatherMarkersRef ++ mkMarkers weatherMarker w.nextId ps } := by
  induction ps generalizing w with
  | nil => simp [mkMarkers]
  | cons p ps ih =>
    rw [List.foldl_cons, ih]
    simp [addWeatherMarker, mkMarkers, Nat.add_assoc, Nat.add_comm 1]

theorem length_mkMarkers {α : Type} (mk : Nat → α → Marker) (n : Nat) (cs : List α) :
    (mkMarkers mk n cs).length = cs.length := by
  induction cs generalizing n with
  | nil => rfl
  | cons c cs ih => simp [mkMarkers, ih]

theorem astarEffect_eq (w : World) (h : w.mapInitialized = true)
    (hne : w.astarcoordinates ≠ []) :
    astarEffect w =
      { w with boatPathRef := w.astarcoordinates,
               layers := removeMarkers w.boatMarkersRef w.layers ++
                 mkMarkers astarMarker w.nextId w.astarcoordinates,
               boatMarkersRef := mkMarkers astarMarker w.nextId w.astarcoordinates,
               nextId := w.nextId + w.astarcoordinates.length,
               center := w.astarcoordinates.getLast? } := by
  have hl : w.astarcoordinates.length ≠ 0 := by simpa using hne
  simp [astarEffect, h, hl, foldl_addAstarMarker]

theorem pathEffect_eq (w : World) (h : w.mapInitialized = true)
    (hne : w.coordinates ≠ []) :
    pathEffect w =
      { w with polylineRef := w.coordinates,
               layers := removeMarkers w.pathMarkersRef w.layers ++
                 mkMarkers pathMarker w.nextId w.coordinates,
               pathMarkersRef := mkMarkers pathMarker w.nextId w.coordinates,
               nextId := w.nextId + w.coordinates.length,
               center := w.coordinates.getLast? } := by
  have hl : w.coordinates.length ≠ 0 := by simpa using hne
  simp [pathEffect, h, hl, foldl_addPathMarker]

theorem weatherEffect_eq (w : World) (h : w.mapInitialized = true) :
    weatherEffect w =
      { w with layers := removeMarkers w.weatherMarkersRef w.layers ++
                 mkMarkers weatherMarker w.nextId w.weatherData,
               weatherMarkersRef := mkMarkers weatherMarker w.nextId w.weatherData,
               nextId := w.nextId + w.weatherData.length } := by
  simp [weatherEffect, h, foldl_addWeatherMarker]

theorem astarEffect_of_empty (w : World) (h : w.astarcoordinates = []) :
    astarEffect w = w := by
  simp [astarEffect, h]

theorem pathEffect_of_empty (w : World) (h : w.coordinates = []) : pathEffect w = w := by
  simp [pathEffect, h]

theorem astarEffect_of_not_ready (w : World) (h : w.mapInitialized = false) :
    astarEffect w = w := by
  simp [astarEffect, h]

theorem pathEffect_of_not_ready (w : World) (h : w.mapInitialized = false) :
    pathEffect w = w := by
  simp [pathEffect, h]

theorem weatherEffect_of_not_ready (w : World) (h : w.mapInitialized = false) :
    weatherEffect w = w := by
  simp [weatherEffect, h]

/-! ## The effects leave the session alone -/

theorem astarEffect_session (w : World) : (astarEffect w).session = w.session := by
  by_cases h : w.mapInitialized = true
  · by_cases hne : w.astarcoordinates = []
    · rw [astarEffect_of_empty w hne]
    · rw [astarEffect_eq w h hne]; rfl
  · rw [astarEffect_of_not_ready w (by simpa using h)]

theorem pathEffect_session (w : World) : (pathEffect w).session = w.session := by
  by_cases h : w.mapInitialized = true
  · by_cases hne : w.coordinates = []
    · rw [pathEffect_of_empty w hne]
    · rw [pathEffect_eq w h hne]; rfl
  · rw [pathEffect_of_not_ready w (by simpa using h)]

theorem weatherEffect_session (w : World) : (weatherEffect w).session = w.session := by
  by_cases h : w.mapInitialized = true
  · rw [weatherEffect_eq w h]; rfl
  · rw [weatherEffect_of_not_ready w (by simpa using h)]

theorem runEffects_session (w : World) : (runEffects w).session = w.session := by
  unfold runEffects
  rw [weatherEffect_session, pathEffect_session, astarEffect_session]

theorem status_eq_of_session {w v : World} (h : v.session = w.session) :
    v.status = w.status := by
  simp only [World.session, Prod.mk.injEq] at h
  exact h.2.2.2.2.2.2.1

/-! ## Session handlers -/

/-- C2: a `final` message replaces the primary path, the alternate path, the
weather samples and the distance by its payload and sets the status to
`Routes Calculated`, whatever the state was; the §8.5 message gives a path of 2
points, an alternate path of 3 points, no weather and the distance `742.3`. -/
theorem final_replaces_session (w : World) (path apath : List Coord)
    (weather : List WeatherPoint) (distance : JsNumber) :
    ((deliver (ServerMessage.final path apath weather distance) w).coordinates = path ∧
      (deliver (ServerMessage.final path apath weather distance) w).astarcoordinates = apath ∧
      (deliver (ServerMessage.final path apath weather distance) w).weatherData = weather ∧
      (deliver (ServerMessage.final path apath weather distance) w).distance = distance ∧
      (deliver (ServerMessage.final path apath weather distance) w).status =
        "Routes Calculated") ∧
    ((deliver sampleFinal w).coordinates.length = 2 ∧
      (deliver sampleFinal w).astarcoordinates.length = 3 ∧
      (deliver sampleFinal w).weatherData = [] ∧
      (deliver sampleFinal w).distance = Number "742.3" ∧
      (deliver sampleFinal w).status = "Routes Calculated") := by
  have key : ∀ p a k d, (deliver (ServerMessage.final p a k d) w).session =
      (onmessage (ServerMessage.final p a k d) w).session := fun p a k d =>
    runEffects_session _
  have hs := key [(JsNumber.ofNat 10, JsNumber.ofNat 20), (JsNumber.ofNat 15, JsNumber.ofNat 25)]
    [(JsNumber.ofNat 10, JsNumber.ofNat 20), (JsNumber.ofNat 12, JsNumber.ofNat 22),
     (JsNumber.ofNat 15, JsNumber.ofNat 25)] [] (decimalValue false 7423 (-1))
  have hd : decimalValue false 7423 (-1) = Number "742.3" := by decide
  have hk := key path apath weather distance
  simp only [World.session, onmessage, Prod.mk.injEq] at hk hs
  obtain ⟨h1, h2, h3, -, h5, -, h7, -⟩ := hk
  obtain ⟨g1, g2, g3, -, g5, -, g7, -⟩ := hs
  refine ⟨⟨h2, h1, h3, h5, h7⟩, ?_, ?_, ?_, ?_, ?_⟩
  · show (deliver (ServerMessage.final _ _ _ _) w).coordinates.length = 2
    rw [g2]; rfl
  · show (deliver (ServerMessage.final _ _ _ _) w).astarcoordinates.length = 3
    rw [g1]; rfl
  · exact g3
  · exact g5.trans hd
  · exact g7

/-- C7: an `error` message with text `m` sets the status to `Error: m` and
changes nothing else: the paths, the weather samples, the distance, the markers
of the three overlays, both polylines and the map are as they were. -/
theorem error_keeps_data (w : World) (m : String) :
    deliver (ServerMessage.error m) w = { w with status := "Error: " ++ m } ∧
    (deliver (ServerMessage.error m) w).status = "Error: " ++ m ∧
    (deliver (ServerMessage.error m) w).coordinates = w.coordinates ∧
    (deliver (ServerMessage.error m) w).astarcoordinates = w.astarcoordinates ∧
    (deliver (ServerMessage.error m) w).weatherData = w.weatherData ∧
    (deliver (ServerMessage.error m) w).distance = w.distance ∧
    (∀ K, overlayMarkers K (deliver (ServerMessage.error m) w) = overlayMarkers K w) ∧
    (∀ K, overlayPolyline K (deliver (ServerMessage.error m) w) = overlayPolyline K w) ∧
    (deliver (ServerMessage.error m) w).layers = w.layers ∧
    (deliver (ServerMessage.error m) w).center = w.center := by
  refine ⟨rfl, rfl, rfl, rfl, rfl, rfl, ?_, ?_, rfl, rfl⟩
  · intro K; cases K <;> rfl
  · intro K; cases K <;> rfl

/-! ## Overlay reconciliation -/

theorem reconcile_of_not_ready (K : OverlayKind) (w : World)
    (h : w.mapInitialized = false) : reconcile K w = w := by
  cases K
  · exact pathEffect_of_not_ready w h
  · exact astarEffect_of_not_ready w h
  · exact weatherEffect_of_not_ready w h

/-- C10: while the map is not ready, reconciling any overlay changes nothing:
the markers of the overlay, its polyline, the layers of the map and its centre
are as they were, and no marker is created. -/
theorem reconcile_not_ready (K : OverlayKind) (w : World) (h : w.mapInitialized = false) :
    reconcile K w = w ∧
    overlayMarkers K (reconcile K w) = overlayMarkers K w ∧
    overlayPolyline K (reconcile K w) = overlayPolyline K w ∧
    (reconcile K w).layers = w.layers ∧
    (reconcile K w).nextId = w.nextId ∧
    (reconcile K w).center = w.center := by
  rw [reconcile_of_not_ready K w h]
  exact ⟨rfl, rfl, rfl, rfl, rfl, rfl⟩

theorem reconcile_not_ready_witness :
    (onmessage sampleFinal World.init).mapInitialized = false ∧
    reconcile OverlayKind.primary (onmessage sampleFinal World.init) =
      onmessage sampleFinal World.init :=
  ⟨rfl, (reconcile_not_ready OverlayKind.primary (onmessage sampleFinal World.init) rfl).1⟩

theorem map_latlng_mkMarkers {α : Type} (mk : Nat → α → Marker) (f : α → Coord)
    (hf : ∀ i c, (mk i c).latlng = f c) (n : Nat) (cs : List α) :
    (mkMarkers mk n cs).map Marker.latlng = cs.map f := by
  induction cs generalizing n with
  | nil => rfl
  | cons c cs ih => simp only [mkMarkers, List.map_cons, hf, ih]

/-- Where an effect does rebuild (the weather overlay, or a path overlay with at
least one point, on a ready map), the overlay ends with one marker per element
of the data, at the positions of the data, and the map carries its former
layers without the old markers of the overlay, followed by the new ones. -/
theorem reconcile_rebuilds (K : OverlayKind) (w : World) (h : w.mapInitialized = true)
    (hK : K = OverlayKind.weather ∨ overlayData K w ≠ []) :
    (overlayMarkers K (reconcile K w)).length = (overlayData K w).length ∧
    (overlayMarkers K (reconcile K w)).map Marker.latlng = overlayData K w ∧
    (reconcile K w).layers =
      removeMarkers (overlayMarkers K w) w.layers ++ overlayMarkers K (reconcile K w) := by
  cases K
  · have hne : w.coordinates ≠ [] := by
      rcases hK with hc | hc
      · cases hc
      · exact hc
    simp only [reconcile, overlayMarkers, overlayData]
    rw [pathEffect_eq w h hne]
    refine ⟨length_mkMarkers _ _ _, ?_, rfl⟩
    simpa using map_latlng_mkMarkers pathMarker id (fun _ _ => rfl) w.nextId w.coordinates
  · have hne : w.astarcoordinates ≠ [] := by
      rcases hK with hc | hc
      · cases hc
      · exact hc
    simp only [reconcile, overlayMarkers, overlayData]
    rw [astarEffect_eq w h hne]
    refine ⟨length_mkMarkers _ _ _, ?_, rfl⟩
    simpa using map_latlng_mkMarkers astarMarker id (fun _ _ => rfl) w.nextId
      w.astarcoordinates
  · simp only [reconcile, overlayMarkers, overlayData]
    rw [weatherEffect_eq w h]
    refine ⟨by simp [length_mkMarkers], ?_, rfl⟩
    exact map_latlng_mkMarkers weatherMarker WeatherPoint.coordinate (fun _ _ => rfl)
      w.nextId w.weatherData

/-- C3: with the map ready and a route of 2 and 3 points and 1 weather sample
drawn, a response without route or weather makes all three data lists empty.
Reconciling the weather overlay then leaves it with 0 markers, but reconciling
the primary overlay leaves its 2 markers and its 2-point polyline, and
reconciling the alternate overlay leaves its 3 markers: both path effects
return before their clearing step, and the 5 stale markers stay on the map. -/
theorem stale_path_markers :
    (drawnSession.mapInitialized = true ∧
      (overlayMarkers OverlayKind.primary drawnSession).length = 2 ∧
      (overlayMarkers OverlayKind.alternate drawnSession).length = 3 ∧
      (overlayMarkers OverlayKind.weather drawnSession).length = 1 ∧
      drawnSession.layers.length = 6) ∧
    (staleSession.mapInitialized = true ∧
      staleSession.status = "Routes Calculated" ∧
      overlayData OverlayKind.primary staleSession = [] ∧
      overlayData OverlayKind.alternate staleSession = [] ∧
      overlayData OverlayKind.weather staleSession = []) ∧
    ((overlayMarkers OverlayKind.weather
        (reconcile OverlayKind.weather staleSession)).length = 0 ∧
      (overlayMarkers OverlayKind.primary
        (reconcile OverlayKind.primary staleSession)).length = 2 ∧
      (overlayMarkers OverlayKind.primary
          (reconcile OverlayKind.primary staleSession)).length ≠
        (overlayData OverlayKind.primary staleSession).length ∧
      (overlayMarkers OverlayKind.alternate
        (reconcile OverlayKind.alternate staleSession)).length = 3 ∧
      (overlayMarkers OverlayKind.alternate
          (reconcile OverlayKind.alternate staleSession)).length ≠
        (overlayData OverlayKind.alternate staleSession).length) ∧
    ((reconcile OverlayKind.primary staleSession).layers.length = 5 ∧
      (reconcile OverlayKind.primary staleSession).layers =
        overlayMarkers OverlayKind.alternate staleSession ++
          overlayMarkers OverlayKind.primary staleSession ∧
      overlayPolyline OverlayKind.primary (reconcile OverlayKind.primary staleSession) =
        some [(JsNumber.ofNat 10, JsNumber.ofNat 20),
              (JsNumber.ofNat 15, JsNumber.ofNat 25)]) := by
  decide

/-! ## Removing markers and fresh identities -/

theorem removeMarkers_eq_filter (ms ls : List Marker) :
    removeMarkers ms ls = ls.filter (fun l => !ms.any (fun m => l.id == m.id)) := by
  unfold removeMarkers
  induction ms generalizing ls with
  | nil => simp
  | cons m ms ih =>
    rw [List.foldl_cons, ih, List.filter_filter]
    congr 1
    funext l
    simp [Bool.and_comm, bne]

theorem mem_removeMarkers {ms ls : List Marker} {l : Marker} (h : l ∈ removeMarkers ms ls) :
    l ∈ ls := by
  rw [removeMarkers_eq_filter] at h
  exact List.mem_of_mem_filter h

theorem id_of_mem_mkMarkers {α : Type} (mk : Nat → α → Marker)
    (hid : ∀ i c, (mk i c).id = i) (n : Nat) (cs : List α) (m : Marker)
    (h : m ∈ mkMarkers mk n cs) : n ≤ m.id ∧ m.id < n + cs.length := by
  induction cs generalizing n with
  | nil => simp [mkMarkers] at h
  | cons c cs ih =>
    simp only [mkMarkers, List.mem_cons] at h
    rcases h with h | h
    · subst h
      rw [hid]
      simp
    · have := ih (n + 1) h
      simp only [List.length_cons]
      omega

theorem removeMarkers_append_fresh {α : Type} (mk : Nat → α → Marker)
    (hid : ∀ i c, (mk i c).id = i) (n : Nat) (cs : List α) (rest : List Marker)
    (hrest : ∀ l ∈ rest, l.id < n) :
    removeMarkers (mkMarkers mk n cs) (rest ++ mkMarkers mk n cs) = rest := by
  rw [removeMarkers_eq_filter, List.filter_append]
  have h1 : rest.filter (fun l => !(mkMarkers mk n cs).any (fun m => l.id == m.id)) = rest := by
    apply List.filter_eq_self.mpr
    intro l hl
    simp only [Bool.not_eq_true', List.any_eq_false, beq_iff_eq]
    intro m hm heq
    have := (id_of_mem_mkMarkers mk hid n cs m hm).1
    have := hrest l hl
    omega
  have h2 : (mkMarkers mk n cs).filter
      (fun l => !(mkMarkers mk n cs).any (fun m => l.id == m.id)) = [] := by
    apply List.filter_eq_nil_iff.mpr
    intro l hl
    simp only [Bool.not_eq_true', Bool.not_eq_false, List.any_eq_true, beq_iff_eq]
    exact ⟨l, hl, rfl⟩
  rw [h1, h2, List.append_nil]

theorem map_shape_mkMarkers {α : Type} (mk : Nat → α → Marker)
    (hs : ∀ i j c, (mk i c).shape = (mk j c).shape) (n k : Nat) (cs : List α) :
    (mkMarkers mk n cs).map Marker.shape = (mkMarkers mk k cs).map Marker.shape := by
  induction cs generalizing n k with
  | nil => rfl
  | cons c cs ih =>
    simp only [mkMarkers, List.map_cons]
    rw [hs n k c, ih (n + 1) (k + 1)]

/-- Rebuilding an overlay whose markers are the last layers of the map, with
the same data, gives the same layers up to the identity of the markers. -/
theorem rebuild_layers {α : Type} (mk : Nat → α → Marker)
    (hid : ∀ i c, (mk i c).id = i) (hs : ∀ i j c, (mk i c).shape = (mk j c).shape)
    (n k : Nat) (cs : List α) (rest : List Marker) (hrest : ∀ l ∈ rest, l.id < n) :
    (removeMarkers (mkMarkers mk n cs) (rest ++ mkMarkers mk n cs) ++
        mkMarkers mk k cs).map Marker.shape =
      (rest ++ mkMarkers mk n cs).map Marker.shape := by
  rw [removeMarkers_append_fresh mk hid n cs rest hrest, List.map_append, List.map_append,
    map_shape_mkMarkers mk hs k n cs]

theorem freshIds_rebuild {α : Type} (mk : Nat → α → Marker)
    (hid : ∀ i c, (mk i c).id = i) (n : Nat) (cs : List α) (old layers : List Marker)
    (h : ∀ l ∈ layers, l.id < n) :
    ∀ l ∈ removeMarkers old layers ++ mkMarkers mk n cs, l.id < n + cs.length := by
  intro l hl
  rcases List.mem_append.mp hl with hl | hl
  · have := h l (mem_removeMarkers hl)
    omega
  · exact (id_of_mem_mkMarkers mk hid n cs l hl).2

theorem astarEffect_freshIds (w : World) (h : FreshIds w) : FreshIds (astarEffect w) := by
  by_cases hi : w.mapInitialized = true
  · by_cases hne : w.astarcoordinates = []
    · rw [astarEffect_of_empty w hne]; exact h
    · rw [astarEffect_eq w hi hne]
      exact freshIds_rebuild astarMarker (fun _ _ => rfl) _ _ _ _ h
  · rw [astarEffect_of_not_ready w (by simpa using hi)]; exact h

theorem pathEffect_freshIds (w : World) (h : FreshIds w) : FreshIds (pathEffect w) := by
  by_cases hi : w.mapInitialized = true
  · by_cases hne : w.coordinates = []
    · rw [pathEffect_of_empty w hne]; exact h
    · rw [pathEffect_eq w hi hne]
      exact freshIds_rebuild pathMarker (fun _ _ => rfl) _ _ _ _ h
  · rw [pathEffect_of_not_ready w (by simpa using hi)]; exact h

theorem weatherEffect_freshIds (w : World) (h : FreshIds w) : FreshIds (weatherEffect w) := by
  by_cases hi : w.mapInitialized = true
  · rw [weatherEffect_eq w hi]
    exact freshIds_rebuild weatherMarker (fun _ _ => rfl) _ _ _ _ h
  · rw [weatherEffect_of_not_ready w (by simpa using hi)]; exact h

theorem runEffects_freshIds (w : World) (h : FreshIds w) : FreshIds (runEffects w) :=
  weatherEffect_freshIds _ (pathEffect_freshIds _ (astarEffect_freshIds _ h))

theorem step_freshIds (w : World) (e : ProtocolEvent) (h : FreshIds w) :
    FreshIds (step w e) := by
  cases e with
  | connect => exact h
  | opened i =>
    simp only [step]
    split
    · exact h
    · exact h
  | message i data =>
    simp only [step]
    split
    · cases data with
      | final p a k d => exact runEffects_freshIds _ h
      | error m => exact h
      | other => exact h
    · exact h
  | failure i =>
    simp only [step]
    split
    · exact h
    · exact h
  | close i =>
    simp only [step]
    split
    · exact h
    · exact h

/-- Every state a session reaches from a fresh map keeps marker identities fresh. -/
theorem run_freshIds (w : World) (evs : List ProtocolEvent) (h : FreshIds w) :
    FreshIds (run w evs) := by
  unfold run
  induction evs generalizing w with
  | nil => exact h
  | cons e evs ih => exact ih _ (step_freshIds w e h)

/-- C9: reconciling an overlay twice with the same data gives what reconciling
once gives: the overlay holds markers of the same positions, styles and texts,
its polyline has the same geometry, and the map carries the same layers and the
same centre, so that no marker is leaked or duplicated. -/
theorem reconcile_idempotent (K : OverlayKind) (w : World) (h : FreshIds w) :
    (overlayMarkers K (reconcile K (reconcile K w))).map Marker.shape =
      (overlayMarkers K (reconcile K w)).map Marker.shape ∧
    (overlayMarkers K (reconcile K (reconcile K w))).length =
      (overlayMarkers K (reconcile K w)).length ∧
    overlayPolyline K (reconcile K (reconcile K w)) = overlayPolyline K (reconcile K w) ∧
    (reconcile K (reconcile K w)).layers.map Marker.shape =
      (reconcile K w).layers.map Marker.shape ∧
    (reconcile K (reconcile K w)).center = (reconcile K w).center := by
  have hrest : ∀ old, ∀ l ∈ removeMarkers old w.layers, l.id < w.nextId :=
    fun old l hl => h l (mem_removeMarkers hl)
  by_cases hi : w.mapInitialized = true
  · cases K
    · by_cases hne : w.coordinates = []
      · simp [reconcile, pathEffect_of_empty w hne]
      · simp only [reconcile, overlayMarkers, overlayPolyline]
        have e1 := pathEffect_eq w hi hne
        have e2 := pathEffect_eq (pathEffect w) (by rw [e1]; exact hi) (by rw [e1]; exact hne)
        rw [e2, e1]
        refine ⟨map_shape_mkMarkers pathMarker (fun _ _ _ => rfl) _ _ _, ?_, rfl, ?_, rfl⟩
        · simp [length_mkMarkers]
        · exact rebuild_layers pathMarker (fun _ _ => rfl) (fun _ _ _ => rfl) _ _ _ _
            (hrest _)
    · by_cases hne : w.astarcoordinates = []
      · simp [reconcile, astarEffect_of_empty w hne]
      · simp only [reconcile, overlayMarkers, overlayPolyline]
        have e1 := astarEffect_eq w hi hne
        have e2 := astarEffect_eq (astarEffect w) (by rw [e1]; exact hi) (by rw [e1]; exact hne)
        rw [e2, e1]
        refine ⟨map_shape_mkMarkers astarMarker (fun _ _ _ => rfl) _ _ _, ?_, rfl, ?_, rfl⟩
        · simp [length_mkMarkers]
        · exact rebuild_layers astarMarker (fun _ _ => rfl) (fun _ _ _ => rfl) _ _ _ _
            (hrest _)
    · simp only [reconcile, overlayMarkers, overlayPolyline]
      have e1 := weatherEffect_eq w hi
      have e2 := weatherEffect_eq (weatherEffect w) (by rw [e1]; exact hi)
      rw [e2, e1]
      refine ⟨map_shape_mkMarkers weatherMarker (fun _ _ _ => rfl) _ _ _, ?_, trivial, ?_, rfl⟩
      · simp [length_mkMarkers]
      · exact rebuild_layers weatherMarker (fun _ _ => rfl) (fun _ _ _ => rfl) _ _ _ _
          (hrest _)
  · rw [reconcile_of_not_ready K w (by simpa using hi),
      reconcile_of_not_ready K w (by simpa using hi)]
    exact ⟨rfl, rfl, rfl, rfl, rfl⟩

theorem reconcile_idempotent_witness :
    FreshIds (deliver sampleFinal sampleSession) ∧
    (reconcile OverlayKind.primary (reconcile OverlayKind.primary
        (deliver sampleFinal sampleSession))).layers.map Marker.shape =
      (reconcile OverlayKind.primary
        (deliver sampleFinal sampleSession)).layers.map Marker.shape :=
  ⟨by unfold FreshIds; decide,
   (reconcile_idempotent OverlayKind.primary (deliver sampleFinal sampleSession)
      (by unfold FreshIds; decide)).2.2.2.1⟩

/-! ## The status machine -/

theorem get?_eq_some_of_reaches {w : World} {i : Nat} (h : i < w.sockets.length) :
    w.sockets.get? i = some (w.sockets.get ⟨i, h⟩) :=
  List.get?_eq_get h

theorem deliver_status (data : ServerMessage) (w : World) :
    (deliver data w).status = (onmessage data w).status := by
  cases data with
  | final p a k d => exact status_eq_of_session (runEffects_session _)
  | error m => rfl
  | other => rfl

/-- The status after one event: the one the event assigns when it reaches the
component, the previous one otherwise. -/
theorem step_status (w : World) (e : ProtocolEvent) :
    (step w e).status =
      if reaches w e = true then (statusSetBy e).getD w.status else w.status := by
  cases e with
  | connect => rfl
  | opened i =>
    by_cases h : i < w.sockets.length
    · simp [step, reaches, h, get?_eq_some_of_reaches h, statusSetBy, onopen]
    · have hn : w.sockets.get? i = none := List.get?_eq_none.mpr (Nat.le_of_not_lt h)
      simp only [step, hn, reaches, h, decide_False, Bool.false_eq_true, if_false]
  | message i data =>
    by_cases h : i < w.sockets.length
    · simp only [step, reaches, h, get?_eq_some_of_reaches h, deliver_status, decide_True,
        if_true]
      cases data <;> rfl
    · have hn : w.sockets.get? i = none := List.get?_eq_none.mpr (Nat.le_of_not_lt h)
      simp only [step, hn, reaches, h, decide_False, Bool.false_eq_true, if_false]
  | failure i =>
    by_cases h : i < w.sockets.length
    · simp [step, reaches, h, get?_eq_some_of_reaches h, statusSetBy, onerror]
    · have hn : w.sockets.get? i = none := List.get?_eq_none.mpr (Nat.le_of_not_lt h)
      simp only [step, hn, reaches, h, decide_False, Bool.false_eq_true, if_false]
  | close i =>
    by_cases h : i < w.sockets.length
    · simp [step, reaches, h, get?_eq_some_of_reaches h, statusSetBy, onclose]
    · have hn : w.sockets.get? i = none := List.get?_eq_none.mpr (Nat.le_of_not_lt h)
      simp only [step, hn, reaches, h, decide_False, Bool.false_eq_true, if_false]

theorem isStatus_error (m : String) : isStatus ("Error: " ++ m) = true := by
  have h : "Error: ".data.isPrefixOf ("Error: " ++ m).data = true := by
    rw [String.data_append, List.isPrefixOf_iff_prefix]
    exact List.prefix_append _ _
  simp [isStatus, h]

theorem isStatus_statusSetBy (e : ProtocolEvent) (s : String) (h : isStatus s = true) :
    isStatus ((statusSetBy e).getD s) = true := by
  cases e with
  | connect => exact (by decide : isStatus "Connecting..." = true)
  | opened i => exact (by decide : isStatus "Calculating Routes..." = true)
  | message i data =>
    cases data with
    | final p a k d => exact (by decide : isStatus "Routes Calculated" = true)
    | error m => exact isStatus_error m
    | other => exact h
  | failure i => exact (by decide : isStatus "Connection Error" = true)
  | close i => exact (by decide : isStatus "Disconnected" = true)

theorem isStatus_step (w : World) (e : ProtocolEvent) (h : isStatus w.status = true) :
    isStatus (step w e).status = true := by
  rw [step_status]
  split
  · exact isStatus_statusSetBy e _ h
  · exact h

theorem isStatus_run (w : World) (evs : List ProtocolEvent) (h : isStatus w.status = true) :
    isStatus (run w evs).status = true := by
  unfold run
  induction evs generalizing w with
  | nil => exact h
  | cons e evs ih => exact ih _ (isStatus_step w e h)

/-- C1 as stated fails: after connect, open and a `final` message, an `error`
message of the same socket moves the status from `Routes Calculated` to
`Error: no route found`, which is no edge of the §4.2 machine. In the same way,
when a second connection is started while the first is calculating, the `final`
message of the first moves the status from `Connecting...` to
`Routes Calculated`, and the open of the second then moves it from
`Routes Calculated` to `Calculating Routes...`. -/
theorem status_edge_counterexample :
    ((run World.init [ProtocolEvent.connect, ProtocolEvent.opened 0,
        ProtocolEvent.message 0 sampleFinal]).status = "Routes Calculated" ∧
      (step (run World.init [ProtocolEvent.connect, ProtocolEvent.opened 0,
          ProtocolEvent.message 0 sampleFinal])
        (ProtocolEvent.message 0 (ServerMessage.error "no route found"))).status =
        "Error: no route found" ∧
      specEdge "Routes Calculated"
        (ProtocolEvent.message 0 (ServerMessage.error "no route found"))
        "Error: no route found" = false) ∧
    ((run World.init [ProtocolEvent.connect, ProtocolEvent.opened 0,
        ProtocolEvent.connect]).status = "Connecting..." ∧
      (step (run World.init [ProtocolEvent.connect, ProtocolEvent.opened 0,
          ProtocolEvent.connect])
        (ProtocolEvent.message 0 sampleFinal)).status = "Routes Calculated" ∧
      specEdge "Connecting..." (ProtocolEvent.message 0 sampleFinal)
        "Routes Calculated" = false) ∧
    ((run World.init [ProtocolEvent.connect, ProtocolEvent.opened 0,
        ProtocolEvent.connect, ProtocolEvent.message 0 sampleFinal]).status =
        "Routes Calculated" ∧
      (step (run World.init [ProtocolEvent.connect, ProtocolEvent.opened 0,
          ProtocolEvent.connect, ProtocolEvent.message 0 sampleFinal])
        (ProtocolEvent.opened 1)).status = "Calculating Routes..." ∧
      specEdge "Routes Calculated" (ProtocolEvent.opened 1)
        "Calculating Routes..." = false) := by
  decide

/-- C1, amended: after any sequence of events from the initial state the status
is one of the six status values, and each further event sets it by its kind
alone, from whatever status: connect to `Connecting...`, open to
`Calculating Routes...`, a `final` message to `Routes Calculated`, an `error`
message to `Error: ` and its text, a transport failure to `Connection Error`,
close to `Disconnected`; a message of another type, and a callback of a socket
that does not exist, leave it as it is. -/
theorem status_after_events (evs : List ProtocolEvent) (e : ProtocolEvent) :
    isStatus (run World.init evs).status = true ∧
    (step (run World.init evs) e).status =
      (if reaches (run World.init evs) e = true
        then (statusSetBy e).getD (run World.init evs).status
        else (run World.init evs).status) :=
  ⟨isStatus_run World.init evs (by decide), step_status _ e⟩

/-! ## Starting a navigation -/

/-- C6: in the §8.5 session the status is `Calculating Routes...`, yet the Start
Navigation button is not disabled, and pressing it opens a second socket while
the first request is still in flight. -/
theorem start_enabled_while_calculating :
    sampleSession.status = "Calculating Routes..." ∧
    startDisabled sampleSession = false ∧
    startLabel sampleSession = "Calculating..." ∧
    sampleSession.sockets.length = 1 ∧
    (clickStart sampleSession).sockets.length = 2 ∧
    (clickStart sampleSession).status = "Connecting..." := by
  decide

theorem pair_of_validateCoordinates {s : String} (h : validateCoordinates s = true) :
    ∃ lat lon : JsNumber, ∃ x y : ℚ, (split s ',').map Number = [lat, lon] ∧
      lat.value = some x ∧ |x| ≤ 90 ∧ lon.value = some y ∧ |y| ≤ 180 := by
  obtain ⟨a, b, x, y, hs, hx, hy, hx2, hy2⟩ := (validateCoordinates_iff s).mp h
  exact ⟨Number a, Number b, x, y, by rw [hs]; rfl, hx, hx2, hy, hy2⟩

/-- C8: when both inputs pass validation, `startNavigation` constructs a socket
whose `onopen` sends `{type: "start", start: [lat1, lon1], end: [lat2, lon2]}`,
each pair being the two finite numbers converted from the input, with the
latitude within 90 and the longitude within 180 in absolute value; when an
input fails validation no socket is constructed, nothing is sent and the status
is unchanged. For `10.0,20.0` and `15.0,25.0` the message carries `[10, 20]`
and `[15, 25]`. -/
theorem startNavigation_request (w v : World) :
    (validateCoordinates w.start = true ∧ validateCoordinates w.end_ = true →
      ∃ lat1 lon1 lat2 lon2 : JsNumber, ∃ x1 y1 x2 y2 : ℚ,
        (split w.start ',').map Number = [lat1, lon1] ∧
        (split w.end_ ',').map Number = [lat2, lon2] ∧
        lat1.value = some x1 ∧ |x1| ≤ 90 ∧ lon1.value = some y1 ∧ |y1| ≤ 180 ∧
        lat2.value = some x2 ∧ |x2| ≤ 90 ∧ lon2.value = some y2 ∧ |y2| ≤ 180 ∧
        (startNavigation w).status = "Connecting..." ∧
        (startNavigation w).sockets = w.sockets ++ [{ start := w.start, end_ := w.end_ }] ∧
        (onopen { start := w.start, end_ := w.end_ } v).sent =
          v.sent ++ [{ type := "start", start := [lat1, lon1], end_ := [lat2, lon2] }]) ∧
    (¬ (validateCoordinates w.start = true ∧ validateCoordinates w.end_ = true) →
      (startNavigation w).sockets = w.sockets ∧ (startNavigation w).sent = w.sent ∧
      (startNavigation w).status = w.status) ∧
    sampleSession.sent =
      [{ type := "start", start := [JsNumber.ofNat 10, JsNumber.ofNat 20],
         end_ := [JsNumber.ofNat 15, JsNumber.ofNat 25] }] := by
  refine ⟨?_, ?_, by decide⟩
  · rintro ⟨hs, he⟩
    obtain ⟨lat1, lon1, x1, y1, h1, hx1, hx1b, hy1, hy1b⟩ := pair_of_validateCoordinates hs
    obtain ⟨lat2, lon2, x2, y2, h2, hx2, hx2b, hy2, hy2b⟩ := pair_of_validateCoordinates he
    refine ⟨lat1, lon1, lat2, lon2, x1, y1, x2, y2, h1, h2, hx1, hx1b, hy1, hy1b, hx2, hx2b,
      hy2, hy2b, ?_, ?_, ?_⟩
    · simp [startNavigation, hs, he, connectWebSocket]
    · simp [startNavigation, hs, he, connectWebSocket]
    · simp [onopen, h1, h2]
  · intro h
    have hc : (!validateCoordinates w.start || !validateCoordinates w.end_) = true := by
      by_cases hs : validateCoordinates w.start = true
      · by_cases he : validateCoordinates w.end_ = true
        · exact absurd ⟨hs, he⟩ h
        · simp [he]
      · simp [hs]
    simp [startNavigation, hc]

theorem startNavigation_request_witness :
    validateCoordinates sampleSession.start = true ∧
    validateCoordinates sampleSession.end_ = true ∧
    ∃ lat1 lon1 lat2 lon2 : JsNumber,
      (onopen { start := sampleSession.start, end_ := sampleSession.end_ } sampleSession).sent =
        sampleSession.sent ++
          [{ type := "start", start := [lat1, lon1], end_ := [lat2, lon2] }] := by
  have hs : validateCoordinates sampleSession.start = true := by decide
  have he : validateCoordinates sampleSession.end_ = true := by decide
  obtain ⟨lat1, lon1, lat2, lon2, -, -, -, -, -, -, -, -, -, -, -, -, -, -, -, -, h⟩ :=
    (startNavigation_request sampleSession sampleSession).1 ⟨hs, he⟩
  exact ⟨hs, he, lat1, lon1, lat2, lon2, h⟩

end ShipRoute
